import Mathlib

/-!
Verification of `cosmos_tls_scanner.py` (Azure Cosmos DB TLS scanner).

The development shallowly embeds the scanner's core: the authorization
signature derivation (`_get_auth_header`), the request builders
(`list_databases`, `basic_query`), the client capability enumeration
(`_get_supported_ssl_versions`), and the probing/classification loop of
`main`.  Bytes are `Nat` values below 256, machine words are `Nat` reduced
modulo 2^32 where the source's arithmetic wraps, and the Python standard
library functions the scanner calls (`hmac.digest` with `hashlib.sha256`,
`base64.b64decode`, `base64.encodebytes`, `urllib.parse.quote` /
`unquote`) are given executable models of their documented semantics.
-/

namespace CosmosTlsScanner

/-! ## 32-bit word arithmetic -/

/-- Reduce a natural number to a 32-bit word. -/
def u32 (n : Nat) : Nat := n % 4294967296

/-- Right-rotate a 32-bit word by `n` bits. -/
def rotr32 (n w : Nat) : Nat := u32 ((w >>> n) ||| (w <<< (32 - n)))

/-! ## SHA-256 (model of `hashlib.sha256`) -/

/-- SHA-256 big sigma 0. -/
def bsig0 (w : Nat) : Nat := rotr32 2 w ^^^ rotr32 13 w ^^^ rotr32 22 w

/-- SHA-256 big sigma 1. -/
def bsig1 (w : Nat) : Nat := rotr32 6 w ^^^ rotr32 11 w ^^^ rotr32 25 w

/-- SHA-256 small sigma 0. -/
def ssig0 (w : Nat) : Nat := rotr32 7 w ^^^ rotr32 18 w ^^^ (w >>> 3)

/-- SHA-256 small sigma 1. -/
def ssig1 (w : Nat) : Nat := rotr32 17 w ^^^ rotr32 19 w ^^^ (w >>> 10)

/-- SHA-256 choice function; complement is xor with the 32-bit mask. -/
def chf (x y z : Nat) : Nat := (x &&& y) ^^^ ((x ^^^ 0xFFFFFFFF) &&& z)

/-- SHA-256 majority function. -/
def majf (x y z : Nat) : Nat := (x &&& y) ^^^ (x &&& z) ^^^ (y &&& z)

/-- The eight 32-bit working variables of the SHA-256 compression. -/
abbrev Sha256State := Nat × Nat × Nat × Nat × Nat × Nat × Nat × Nat

/-- SHA-256 round constants. -/
def sha256K : List Nat :=
  [1116352408, 1899447441, 3049323471, 3921009573, 961987163,
   1508970993, 2453635748, 2870763221, 3624381080, 310598401,
   607225278, 1426881987, 1925078388, 2162078206, 2614888103,
   3248222580, 3835390401, 4022224774, 264347078, 604807628,
   770255983, 1249150122, 1555081692, 1996064986, 2554220882,
   2821834349, 2952996808, 3210313671, 3336571891, 3584528711,
   113926993, 338241895, 666307205, 773529912, 1294757372,
   1396182291, 1695183700, 1986661051, 2177026350, 2456956037,
   2730485921, 2820302411, 3259730800, 3345764771, 3516065817,
   3600352804, 4094571909, 275423344, 430227734, 506948616,
   659060556, 883997877, 958139571, 1322822218, 1537002063,
   1747873779, 1955562222, 2024104815, 2227730452, 2361852424,
   2428436474, 2756734187, 3204031479, 3329325298]

/-- SHA-256 initial hash value. -/
def sha256H0 : Sha256State :=
  (1779033703, 3144134277, 1013904242, 2773480762,
   1359893119, 2600822924, 528734635, 1541459225)

/-- Split a byte list into chunks of `n` bytes (last chunk possibly short). -/
def chunksOf (n : Nat) (l : List Nat) : List (List Nat) :=
  if h : l = [] ∨ n = 0 then [] else l.take n :: chunksOf n (l.drop n)
termination_by l.length
decreasing_by
  simp only [List.length_drop]
  rcases Nat.eq_zero_or_pos l.length with h0 | h0
  · exact absurd (List.eq_nil_of_length_eq_zero h0) (fun hnil => h (Or.inl hnil))
  · have hn : 0 < n := Nat.pos_of_ne_zero (fun h0 => h (Or.inr h0))
    omega

/-- Big-endian 32-bit word from four bytes. -/
def beWord : List Nat → Nat
  | [b0, b1, b2, b3] => b0 * 16777216 + b1 * 65536 + b2 * 256 + b3
  | _ => 0

/-- First sixteen message-schedule words of one 64-byte block. -/
def initW (block : List Nat) : List Nat := (chunksOf 4 block).map beWord

/-- Extend the message schedule by `i` further words. -/
def extendW : List Nat → Nat → List Nat
  | w, 0 => w
  | w, i + 1 =>
    let w' := extendW w i
    w' ++ [u32 (ssig1 (w'.getD (w'.length - 2) 0) + w'.getD (w'.length - 7) 0 +
                ssig0 (w'.getD (w'.length - 15) 0) + w'.getD (w'.length - 16) 0)]

/-- The 64-word message schedule of one block. -/
def msgSchedule (block : List Nat) : List Nat := extendW (initW block) 48

/-- One SHA-256 round on the working variables. -/
def roundStep (st : Sha256State) (kw : Nat × Nat) : Sha256State :=
  let (a, b, c, d, e, f, g, h) := st
  let t1 := u32 (h + bsig1 e + chf e f g + kw.1 + kw.2)
  let t2 := u32 (bsig0 a + majf a b c)
  (u32 (t1 + t2), a, b, c, u32 (d + t1), e, f, g)

/-- SHA-256 compression of one 64-byte block into the running state. -/
def compressBlock (st : Sha256State) (block : List Nat) : Sha256State :=
  let fin := (sha256K.zip (msgSchedule block)).foldl roundStep st
  let (a, b, c, d, e, f, g, h) := st
  let (a', b', c', d', e', f', g', h') := fin
  (u32 (a + a'), u32 (b + b'), u32 (c + c'), u32 (d + d'),
   u32 (e + e'), u32 (f + f'), u32 (g + g'), u32 (h + h'))

/-- Big-endian bytes of a 32-bit word. -/
def wordBytes (w : Nat) : List Nat :=
  [(w >>> 24) &&& 255, (w >>> 16) &&& 255, (w >>> 8) &&& 255, w &&& 255]

/-- The 32 digest bytes of a final SHA-256 state. -/
def stateBytes (st : Sha256State) : List Nat :=
  let (a, b, c, d, e, f, g, h) := st
  wordBytes a ++ wordBytes b ++ wordBytes c ++ wordBytes d ++
  wordBytes e ++ wordBytes f ++ wordBytes g ++ wordBytes h

/-- SHA-256 message padding: `0x80`, zeros to 56 mod 64, 64-bit length. -/
def padMsg (m : List Nat) : List Nat :=
  let L := m.length * 8
  m ++ 0x80 :: List.replicate ((119 - m.length % 64) % 64) 0 ++
    [(L >>> 56) &&& 255, (L >>> 48) &&& 255, (L >>> 40) &&& 255,
     (L >>> 32) &&& 255, (L >>> 24) &&& 255, (L >>> 16) &&& 255,
     (L >>> 8) &&& 255, L &&& 255]

/-- SHA-256 of a byte list, as 32 digest bytes (model of `hashlib.sha256`). -/
def sha256 (m : List Nat) : List Nat :=
  stateBytes ((chunksOf 64 (padMsg m)).foldl compressBlock sha256H0)

/-- HMAC-SHA-256 with 64-byte block size (model of
`hmac.digest(key, msg, hashlib.sha256)`). -/
def hmacSha256 (key msg : List Nat) : List Nat :=
  let k1 := if 64 < key.length then sha256 key else key
  let k2 := k1 ++ List.replicate (64 - k1.length) 0
  let ipad := k2.map (fun b => b ^^^ 0x36)
  let opad := k2.map (fun b => b ^^^ 0x5c)
  sha256 (opad ++ sha256 (ipad ++ msg))

/-! ## Base64 (models of `base64.b64decode` and `base64.encodebytes`) -/

/-- The base64 alphabet. -/
def b64alphabet : List Char :=
  "ABCDEFGHIJKLMNOPQRSTUVWXYZabcdefghijklmnopqrstuvwxyz0123456789+/".data

/-- Whether a character belongs to the base64 alphabet. -/
def isB64Char (c : Char) : Bool := b64alphabet.contains c

/-- The base64 character for a 6-bit value. -/
def b64chr (n : Nat) : Char := b64alphabet.getD n 'A'

/-- The 6-bit value of a base64 character. -/
def b64val (c : Char) : Nat := ((b64alphabet.findIdx? (· == c)).getD 0)

/-- Base64-encode a byte list, three bytes to four characters, with `=`
padding and no line breaks. -/
def b64encodeChars : List Nat → List Char
  | [] => []
  | [b1] => [b64chr (b1 / 4), b64chr (b1 % 4 * 16), '=', '=']
  | [b1, b2] => [b64chr (b1 / 4), b64chr (b1 % 4 * 16 + b2 / 16),
                 b64chr (b2 % 16 * 4), '=']
  | b1 :: b2 :: b3 :: rest =>
    b64chr (b1 / 4) :: b64chr (b1 % 4 * 16 + b2 / 16) ::
    b64chr (b2 % 16 * 4 + b3 / 64) :: b64chr (b3 % 64) :: b64encodeChars rest

/-- Unwrapped base64 encoding of a byte list, as a string. -/
def b64encodeNoWrap (bs : List Nat) : String := ⟨b64encodeChars bs⟩

/-- Model of `base64.encodebytes`: the input is split into 57-byte chunks
(76 encoded characters) and every chunk's encoding ends with a newline. -/
def encodebytesChars (bs : List Nat) : List Char :=
  ((chunksOf 57 bs).map (fun c => b64encodeChars c ++ ['\n'])).flatten

/-- `base64.encodebytes` as a string-valued function. -/
def encodebytes (bs : List Nat) : String := ⟨encodebytesChars bs⟩

/-- Decode a run of base64 data characters (no padding characters). -/
def b64decodeQuads : List Char → List Nat
  | c1 :: c2 :: c3 :: c4 :: rest =>
    (b64val c1 * 4 + b64val c2 / 16) ::
    (b64val c2 % 16 * 16 + b64val c3 / 4) ::
    (b64val c3 % 4 * 64 + b64val c4) :: b64decodeQuads rest
  | [c1, c2] => [b64val c1 * 4 + b64val c2 / 16]
  | [c1, c2, c3] => [b64val c1 * 4 + b64val c2 / 16, b64val c2 % 16 * 16 + b64val c3 / 4]
  | _ => []

/-- Model of `base64.b64decode` with `validate=False` (the scanner's call):
characters outside the base64 alphabet and `=` are discarded before the
padding check, characters from the first `=` on count only as padding, and
a retained length that is not a multiple of four (or a data length of
1 mod 4) raises `binascii.Error` — modelled as `none`. -/
def b64decode (s : String) : Option (List Nat) :=
  let cs := s.data.filter (fun c => isB64Char c || c == '=')
  let dat := cs.takeWhile (fun c => !(c == '='))
  if cs.length % 4 == 0 && dat.length % 4 != 1 then some (b64decodeQuads dat)
  else none

/-! ## Percent-encoding (models of `urllib.parse.quote` / `unquote`) -/

/-- UTF-8 encoding of one character. -/
def utf8Encode (c : Char) : List Nat :=
  let n := c.toNat
  if n < 0x80 then [n]
  else if n < 0x800 then [0xC0 ||| (n >>> 6), 0x80 ||| (n &&& 0x3F)]
  else if n < 0x10000 then
    [0xE0 ||| (n >>> 12), 0x80 ||| ((n >>> 6) &&& 0x3F), 0x80 ||| (n &&& 0x3F)]
  else
    [0xF0 ||| (n >>> 18), 0x80 ||| ((n >>> 12) &&& 0x3F),
     0x80 ||| ((n >>> 6) &&& 0x3F), 0x80 ||| (n &&& 0x3F)]

/-- UTF-8 bytes of a string (model of `str.encode("utf-8")`). -/
def utf8Bytes (s : String) : List Nat := (s.data.map utf8Encode).flatten

/-- Characters `urllib.parse.quote` leaves unescaped with its default
`safe='/'`: ASCII alphanumerics, `_.-~`, and `/`. -/
def isQuoteSafe (c : Char) : Bool :=
  c.isAlphanum || c == '_' || c == '.' || c == '-' || c == '~' || c == '/'

/-- Upper-case hexadecimal digit of a value below 16. -/
def hexDigitUpper (n : Nat) : Char := "0123456789ABCDEF".data.getD n '0'

/-- The three characters of a percent-escape for one byte. -/
def percentTriple (b : Nat) : List Char :=
  ['%', hexDigitUpper (b / 16), hexDigitUpper (b % 16)]

/-- Percent-encoding of one character: safe characters pass through,
others contribute one escape per UTF-8 byte. -/
def quoteChar (c : Char) : List Char :=
  if isQuoteSafe c then [c] else ((utf8Encode c).map percentTriple).flatten

/-- Model of `urllib.parse.quote` with the default `safe='/'`. -/
def quote (s : String) : String := ⟨(s.data.map quoteChar).join⟩

/-- Whether a character is a hexadecimal digit (either case). -/
def isHexDigitChar (c : Char) : Bool :=
  c.isDigit || ('a' ≤ c && c ≤ 'f') || ('A' ≤ c && c ≤ 'F')

/-- Value of a hexadecimal digit. -/
def hexVal (c : Char) : Nat :=
  if c.isDigit then c.toNat - 48
  else if 'a' ≤ c && c ≤ 'f' then c.toNat - 87
  else c.toNat - 55

/-- Byte-level core of `urllib.parse.unquote`: percent-escapes become the
escaped byte, every other character contributes its UTF-8 bytes, and a `%`
not followed by two hexadecimal digits passes through literally. -/
def unquoteBytes : List Char → List Nat
  | [] => []
  | c :: rest =>
    if hc : c = '%' then
      match rest with
      | a :: b :: rest2 =>
        if isHexDigitChar a && isHexDigitChar b then
          (hexVal a * 16 + hexVal b) :: unquoteBytes rest2
        else utf8Encode c ++ unquoteBytes (a :: b :: rest2)
      | [a] => utf8Encode c ++ unquoteBytes [a]
      | [] => utf8Encode c
    else utf8Encode c ++ unquoteBytes rest

/-- Decode a byte list as ASCII text, failing on bytes of 128 or more. -/
def asciiDecode (bs : List Nat) : Option String :=
  if bs.all (fun b => b < 128) then some ⟨bs.map Char.ofNat⟩ else none

/-! ## ASCII string helpers (models of `str.lower` and `str.strip`) -/

/-- ASCII lower-casing of one character; agrees with Python `str.lower`
on the ASCII strings the scanner lower-cases. -/
def asciiLowerChar (c : Char) : Char :=
  if 65 ≤ c.toNat && c.toNat ≤ 90 then Char.ofNat (c.toNat + 32) else c

/-- ASCII lower-casing of a string. -/
def asciiLower (s : String) : String := ⟨s.data.map asciiLowerChar⟩

/-- Python string whitespace (ASCII part), as stripped by `str.strip`. -/
def isPySpace (c : Char) : Bool :=
  c == ' ' || c == '\t' || c == '\n' || c == '\r' ||
  c == '\x0b' || c == '\x0c'

/-- Model of `str.strip()`: remove leading and trailing whitespace. -/
def pyStrip (s : String) : String :=
  ⟨((s.data.dropWhile isPySpace).reverse.dropWhile isPySpace).reverse⟩

/-- Remove the last character of a string (Python `s[:-1]`). -/
def pyDropLast (s : String) : String := ⟨s.data.dropLast⟩

/-- Whether `needle` begins `hay`, character by character. -/
def startsWithChars : List Char → List Char → Bool
  | [], _ => true
  | _ :: _, [] => false
  | n :: ns, h :: hs => n == h && startsWithChars ns hs

/-- Whether `needle` occurs as a contiguous substring of `hay`
(model of Python's `needle in hay` on strings). -/
def containsChars (needle : List Char) : List Char → Bool
  | [] => needle.isEmpty
  | c :: rest => startsWithChars needle (c :: rest) || containsChars needle rest

/-- Python `needle in hay` on strings. -/
def pyInStr (needle hay : String) : Bool := containsChars needle.data hay.data

/-! ## The Signer (`_get_auth_header`) -/

/-- The canonical newline-delimited payload signed by `_get_auth_header`:
`verb.lower() + "\n" + resource_type.lower() + "\n" + resource_link +
"\n" + date.lower() + "\n" + "\n"`. -/
def signPayload (verb resource_type resource_link date : String) : String :=
  asciiLower verb ++ "\n" ++ asciiLower resource_type ++ "\n" ++
  resource_link ++ "\n" ++ asciiLower date ++ "\n" ++ "\n"

/-- Embedding of `_get_auth_header`: base64-decode the key, HMAC-SHA256
the canonical payload, `base64.encodebytes` the digest, drop the last
character (`signature[:-1]`), and percent-encode the full
`type=master&ver=1.0&sig=...` token.  A key whose base64 decoding raises
`binascii.Error` yields `none` (the exception propagates in Python). -/
def _get_auth_header (key verb resource_type resource_link date : String) :
    Option String :=
  (b64decode key).map fun k =>
    let payload := signPayload verb resource_type resource_link date
    let digest := hmacSha256 k (utf8Bytes payload)
    let signature := encodebytes digest
    quote ("type=master&ver=1.0&sig=" ++ pyDropLast signature)

/-! ## Request builders (`list_databases`, `basic_query`) -/

/-- The HTTP request a probe sends: method, resource coordinates, the
headers dictionary in insertion order, and the optional body.  URL
assembly and socket transport (`_send_request`) are external glue. -/
structure Request where
  verb : String
  resourceType : String
  resourceLink : String
  headers : List (String × String)
  body : Option String
deriving DecidableEq

/-- Embedding of the request built by `list_databases`: the formatted
UTC HTTP-date (`strftime` output, mixed case) is an input because time
is external; the function lower-cases it into `date_str` and uses that
single string both for signing and for the `x-ms-date` header. -/
def list_databases_request (key dateFormatted : String) : Option Request :=
  let date_str := asciiLower dateFormatted
  (_get_auth_header key "get" "dbs" "" date_str).map fun auth =>
    { verb := "get"
      resourceType := "dbs"
      resourceLink := ""
      headers := [("authorization", auth),
                  ("x-ms-version", "2017-02-22"),
                  ("x-ms-date", date_str),
                  ("x-ms-max-item-count", "1"),
                  ("Cache-Control", "no-cache")]
      body := none }

/-- Embedding of the request built by `basic_query`, analogous to
`list_databases_request`. -/
def basic_query_request (key dateFormatted database_name container_name : String) :
    Option Request :=
  let date_str := asciiLower dateFormatted
  let resource_link := "dbs/" ++ database_name ++ "/colls/" ++ container_name
  (_get_auth_header key "post" "docs" resource_link date_str).map fun auth =>
    { verb := "post"
      resourceType := "docs"
      resourceLink := resource_link
      headers := [("content-type", "application/query+json"),
                  ("authorization", auth),
                  ("x-ms-version", "2017-02-22"),
                  ("x-ms-date", date_str),
                  ("x-ms-documentdb-isquery", "True"),
                  ("Cache-Control", "no-cache")]
      body := some "\x7b\"query\":\"SELECT 1\"\x7d" }

/-! ## Capability enumeration (`_get_supported_ssl_versions`) -/

/-- The `HAS_*` capability booleans of the local `ssl` module. -/
structure SslHas where
  hasSSLv2 : Bool
  hasSSLv3 : Bool
  hasTLSv1 : Bool
  hasTLSv1_1 : Bool
  hasTLSv1_2 : Bool
  hasTLSv1_3 : Bool
deriving DecidableEq

/-- CPython `ssl.PROTOCOL_SSLv2`. -/
def PROTOCOL_SSLv2 : Nat := 0

/-- CPython `ssl.PROTOCOL_SSLv3`. -/
def PROTOCOL_SSLv3 : Nat := 1

/-- CPython `ssl.PROTOCOL_TLSv1`. -/
def PROTOCOL_TLSv1 : Nat := 3

/-- CPython `ssl.PROTOCOL_TLSv1_1`. -/
def PROTOCOL_TLSv1_1 : Nat := 4

/-- CPython `ssl.PROTOCOL_TLSv1_2`. -/
def PROTOCOL_TLSv1_2 : Nat := 5

/-- `ssl.OP_NO_SSLv2` (OpenSSL 1.0.x bit; OpenSSL 1.1+ defines it as 0,
which only makes the bitwise-and below even more immediately zero). -/
def OP_NO_SSLv2 : Nat := 0x01000000

/-- `ssl.OP_NO_SSLv3`. -/
def OP_NO_SSLv3 : Nat := 0x02000000

/-- `ssl.OP_NO_TLSv1`. -/
def OP_NO_TLSv1 : Nat := 0x04000000

/-- `ssl.OP_NO_TLSv1_1`. -/
def OP_NO_TLSv1_1 : Nat := 0x10000000

/-- `ssl.OP_NO_TLSv1_2`. -/
def OP_NO_TLSv1_2 : Nat := 0x08000000

/-- Python truthiness of the `ssl_version` slot: `None` and `0` are
falsy, any other integer is truthy (`if not ssl_version`). -/
def pythonTruthy : Option Nat → Bool
  | none => false
  | some n => n != 0

/-- Embedding of `_get_supported_ssl_versions`.  Note the source's TLS 1.3
entry: it is guarded by `HAS_TLSv1_2` and its value is the bitwise AND
(`&`) of the five pairwise-disjoint `OP_NO_*` masks, which is `0`. -/
def _get_supported_ssl_versions (m : SslHas) : List (String × Option Nat) :=
  [("SSL V2 (not supported by Azure Cosmos DB)",
    if m.hasSSLv2 then some PROTOCOL_SSLv2 else none),
   ("SSL V3 (not supported by Azure Cosmos DB)",
    if m.hasSSLv3 then some PROTOCOL_SSLv3 else none),
   ("TLS V1  ", if m.hasTLSv1 then some PROTOCOL_TLSv1 else none),
   ("TLS V1.1", if m.hasTLSv1_1 then some PROTOCOL_TLSv1_1 else none),
   ("TLS V1.2", if m.hasTLSv1_2 then some PROTOCOL_TLSv1_2 else none),
   ("TLS V1.3",
    if m.hasTLSv1_2 then
      some (OP_NO_SSLv2 &&& OP_NO_SSLv3 &&& OP_NO_TLSv1 &&&
            OP_NO_TLSv1_1 &&& OP_NO_TLSv1_2)
    else none)]

/-! ## The probing loop of `main` -/

/-- Python truthiness of an optional CLI string: `None` and `""` are
falsy (`if args.database_name and args.collection_name`). -/
def truthyOptStr : Option String → Bool
  | none => false
  | some s => s != ""

/-- The in-place update `main` performs before the loop: when both the
database name and the collection name are truthy, both are stripped and
stored back into the arguments; otherwise they are left untouched. -/
def mainNames (db coll : Option String) : Option String × Option String :=
  if truthyOptStr db && truthyOptStr coll then
    (some (pyStrip (db.getD "")), some (pyStrip (coll.getD "")))
  else (db, coll)

/-- The request `main` builds for one probe.  The loop re-evaluates
`args.database_name and args.collection_name` on the possibly stripped
arguments, so a name that was truthy on the command line but consists
only of whitespace strips to `""` and the probe falls back to
`list_databases`; only when both stripped names are still truthy is the
`basic_query` request built, with the stripped names. -/
def probeRequest (key dateFormatted : String) (db coll : Option String) :
    Option Request :=
  let args := mainNames db coll
  if truthyOptStr args.1 && truthyOptStr args.2 then
    basic_query_request key dateFormatted (args.1.getD "") (args.2.getD "")
  else list_databases_request key dateFormatted

/-- What the transport returns for one probe: a completed HTTP exchange,
or a raised exception (for example an SSL handshake failure inside
`session.request`). -/
inductive NetResult where
  | response (status : Nat) (text : String)
  | raised
deriving DecidableEq

/-- `requests.Response.ok`: true exactly for status codes below 400. -/
def responseOk (status : Nat) : Bool := status < 400

/-- The per-version outcome the loop of `main` reports. -/
inductive Outcome where
  | clientUnsupported
  | supported
  | notSupported
  | connectionError (status : Nat) (text : String)
deriving DecidableEq

/-- Embedding of the response classification in `main`:
`response.ok`, then `"TLS" in response.text`, then the fallback. -/
def classifyResponse (status : Nat) (text : String) : Outcome :=
  if responseOk status then .supported
  else if pyInStr "TLS" text then .notSupported
  else .connectionError status text

/-- Embedding of the `for ssl_version_name, ssl_version in ssl_versions`
loop of `main`.  `net` is the transport oracle mapping the pinned
`ssl_version` flag and the built request to what `session.request` does.
The result pairs the report lines produced before the loop ended with a
flag saying whether an uncaught exception aborted the run: the loop body
has no `try`/`except`, so a raised exception (from signing or transport)
ends the whole run. -/
def runProbes (net : Nat → Request → NetResult) (key dateFormatted : String)
    (db coll : Option String) :
    List (String × Option Nat) → List (String × Outcome) × Bool
  | [] => ([], false)
  | (name, v) :: rest =>
    if pythonTruthy v then
      match probeRequest key dateFormatted db coll with
      | none => ([], true)
      | some req =>
        match net (v.getD 0) req with
        | .raised => ([], true)
        | .response status text =>
          let out := runProbes net key dateFormatted db coll rest
          ((name, classifyResponse status text) :: out.1, out.2)
    else
      let out := runProbes net key dateFormatted db coll rest
      ((name, Outcome.clientUnsupported) :: out.1, out.2)

/-- Embedding of `main`: strip the key (as `main` strips
`args.authorization_key`), enumerate the client's SSL versions, and run
the probing loop over them. -/
def mainScan (net : Nat → Request → NetResult) (key dateFormatted : String)
    (db coll : Option String) (m : SslHas) : List (String × Outcome) × Bool :=
  runProbes net (pyStrip key) dateFormatted db coll (_get_supported_ssl_versions m)

/-! ## Supporting lemmas -/

/-- `Char.ofNat` is a right inverse of `Char.toNat` on valid code points. -/
theorem toNat_ofNat_of_valid (n : Nat) (h : n.isValidChar) :
    (Char.ofNat n).toNat = n := by
  unfold Char.ofNat
  rw [dif_pos h]
  rfl

/-- A final SHA-256 state always serialises to 32 bytes. -/
theorem stateBytes_length (st : Sha256State) : (stateBytes st).length = 32 := by
  obtain ⟨a, b, c, d, e, f, g, h⟩ := st
  simp [stateBytes, wordBytes]

/-- SHA-256 digests have 32 bytes. -/
theorem sha256_length (m : List Nat) : (sha256 m).length = 32 :=
  stateBytes_length _

/-- HMAC-SHA-256 digests have 32 bytes. -/
theorem hmacSha256_length (key msg : List Nat) :
    (hmacSha256 key msg).length = 32 :=
  sha256_length _

/-- A nonempty list no longer than the chunk size is a single chunk. -/
theorem chunksOf_eq_single (n : Nat) (l : List Nat) (hne : l ≠ [])
    (hlen : l.length ≤ n) : chunksOf n l = [l] := by
  have hn : n ≠ 0 := by
    intro h0
    subst h0
    exact hne (List.eq_nil_of_length_eq_zero (Nat.le_zero.mp hlen))
  rw [chunksOf, dif_neg (by simp [hne, hn]), List.take_all_of_le hlen,
      List.drop_eq_nil_of_le hlen, chunksOf]
  simp

/-- For at most 57 input bytes, `base64.encodebytes` is the unwrapped
base64 encoding followed by exactly one newline: the 76-character line
wrap never triggers. -/
theorem encodebytesChars_small (bs : List Nat) (hne : bs ≠ [])
    (hlen : bs.length ≤ 57) :
    encodebytesChars bs = b64encodeChars bs ++ ['\n'] := by
  unfold encodebytesChars
  rw [chunksOf_eq_single 57 bs hne hlen]
  simp

/-- On a valid key, `_get_auth_header` is the percent-encoding of the
token whose signature part is the unwrapped base64 of the HMAC-SHA256
digest of the canonical payload: the `[:-1]` slice removes exactly the
single trailing newline `base64.encodebytes` appends. -/
theorem get_auth_header_eq (key verb rt rl date : String) (k : List Nat)
    (h : b64decode key = some k) :
    _get_auth_header key verb rt rl date =
      some (quote ("type=master&ver=1.0&sig=" ++
        b64encodeNoWrap (hmacSha256 k (utf8Bytes (signPayload verb rt rl date))))) := by
  unfold _get_auth_header
  rw [h, Option.map_some']
  show some (quote ("type=master&ver=1.0&sig=" ++ pyDropLast (encodebytes
    (hmacSha256 k (utf8Bytes (signPayload verb rt rl date)))))) = _
  have hlen := hmacSha256_length k (utf8Bytes (signPayload verb rt rl date))
  have hne : hmacSha256 k (utf8Bytes (signPayload verb rt rl date)) ≠ [] := by
    intro h0
    rw [h0] at hlen
    simp at hlen
  have hdrop : pyDropLast (encodebytes
      (hmacSha256 k (utf8Bytes (signPayload verb rt rl date)))) =
      b64encodeNoWrap (hmacSha256 k (utf8Bytes (signPayload verb rt rl date))) := by
    unfold pyDropLast encodebytes b64encodeNoWrap
    have : encodebytesChars (hmacSha256 k (utf8Bytes (signPayload verb rt rl date))) =
        b64encodeChars (hmacSha256 k (utf8Bytes (signPayload verb rt rl date))) ++ ['\n'] :=
      encodebytesChars_small _ hne (by rw [hlen]; omega)
    rw [this]
    exact congrArg String.mk (List.dropLast_concat ..)
  rw [hdrop]

/-- `getD` from a list all of whose members satisfy a predicate, with a
default that satisfies it, satisfies it. -/
theorem all_getD {α : Type} (p : α → Bool) (l : List α) (d : α)
    (h : l.all p = true) (hd : p d = true) (n : Nat) : p (l.getD n d) = true := by
  induction l generalizing n with
  | nil => simpa [List.getD]
  | cons x xs ih =>
    rw [List.all_cons, Bool.and_eq_true] at h
    cases n with
    | zero => simpa [List.getD] using h.1
    | succ n => simpa [List.getD] using ih h.2 n

/-- A character is a clean base64 output character: in the alphabet or
`=`, and ASCII. -/
def goodB64 (c : Char) : Bool := (isB64Char c || c == '=') && decide (c.toNat < 128)

/-- Every character the base64 table can produce is clean. -/
theorem b64chr_good (n : Nat) : goodB64 (b64chr n) = true :=
  all_getD goodB64 b64alphabet 'A' (by decide) (by decide) n

/-- Every character of a base64 encoding is in the alphabet or `=`,
and ASCII. -/
theorem b64encodeChars_good : ∀ bs, (b64encodeChars bs).all goodB64 = true
  | [] => by simp [b64encodeChars]
  | [b1] => by simp [b64encodeChars, b64chr_good]; decide
  | [b1, b2] => by simp [b64encodeChars, b64chr_good]; decide
  | b1 :: b2 :: b3 :: rest => by
    simp only [b64encodeChars, List.all_cons, b64chr_good, Bool.true_and]
    exact b64encodeChars_good rest

/-- ASCII characters UTF-8-encode to their single code-point byte. -/
theorem utf8Encode_ascii (c : Char) (h : c.toNat < 128) :
    utf8Encode c = [c.toNat] := by
  unfold utf8Encode
  rw [if_pos h]

/-- The upper-case hex digit of a value below 16 is a hex digit and
decodes back to the value. -/
theorem hexDigitUpper_spec (b : Nat) (h : b < 16) :
    isHexDigitChar (hexDigitUpper b) = true ∧ hexVal (hexDigitUpper b) = b := by
  interval_cases b <;> exact ⟨by decide, by decide⟩

/-- A quote-safe character is not the escape character. -/
theorem safe_ne_pct (c : Char) (h : isQuoteSafe c = true) : c ≠ '%' := by
  intro he
  rw [he] at h
  exact absurd h (by decide)

/-- Unfolding `unquoteBytes` at a non-escape character. -/
theorem unquoteBytes_cons_notpct (c : Char) (l : List Char) (h : c ≠ '%') :
    unquoteBytes (c :: l) = utf8Encode c ++ unquoteBytes l := by
  conv_lhs => unfold unquoteBytes
  rw [dif_neg h]

/-- Unfolding `unquoteBytes` at a well-formed percent escape. -/
theorem unquoteBytes_pct (a b : Char) (l : List Char)
    (ha : isHexDigitChar a = true) (hb : isHexDigitChar b = true) :
    unquoteBytes ('%' :: a :: b :: l) =
      (hexVal a * 16 + hexVal b) :: unquoteBytes l := by
  conv_lhs => unfold unquoteBytes
  rw [dif_pos rfl]
  simp [ha, hb]

/-- Percent-decoding inverts `quote` on ASCII text, byte for byte. -/
theorem unquote_quote_ascii : ∀ cs : List Char, (∀ c ∈ cs, c.toNat < 128) →
    unquoteBytes ((cs.map quoteChar).flatten) = cs.map Char.toNat := by
  intro cs
  induction cs with
  | nil => intro _; simp [unquoteBytes]
  | cons c rest ih =>
    intro h
    have hc : c.toNat < 128 := h c (List.mem_cons_self c rest)
    have hrest : ∀ x ∈ rest, x.toNat < 128 := fun x hx => h x (List.mem_cons_of_mem _ hx)
    simp only [List.map_cons, List.flatten_cons]
    by_cases hs : isQuoteSafe c = true
    · rw [quoteChar, if_pos hs, List.singleton_append,
          unquoteBytes_cons_notpct c _ (safe_ne_pct c hs),
          utf8Encode_ascii c hc, ih hrest]
      simp
    · have hs' : isQuoteSafe c = false := by simpa using hs
      have hq : quoteChar c = ['%', hexDigitUpper (c.toNat / 16),
          hexDigitUpper (c.toNat % 16)] := by
        rw [quoteChar, if_neg (by simp [hs']), utf8Encode_ascii c hc]
        simp [percentTriple]
      obtain ⟨hh1, hv1⟩ := hexDigitUpper_spec (c.toNat / 16) (by omega)
      obtain ⟨hh2, hv2⟩ := hexDigitUpper_spec (c.toNat % 16) (by omega)
      rw [hq]
      simp only [List.cons_append, List.nil_append]
      rw [unquoteBytes_pct _ _ _ hh1 hh2, hv1, hv2, ih hrest]
      congr 1
      omega

/-- ASCII lower-casing is idempotent. -/
theorem asciiLowerChar_idem (c : Char) :
    asciiLowerChar (asciiLowerChar c) = asciiLowerChar c := by
  unfold asciiLowerChar
  by_cases h : (65 ≤ c.toNat && c.toNat ≤ 90) = true
  · rw [if_pos h]
    rw [Bool.and_eq_true, decide_eq_true_eq, decide_eq_true_eq] at h
    have hv : (c.toNat + 32).isValidChar := Or.inl (by omega)
    rw [toNat_ofNat_of_valid _ hv]
    rw [if_neg (fun hx => by
      rw [Bool.and_eq_true, decide_eq_true_eq, decide_eq_true_eq] at hx
      omega)]
  · rw [if_neg h, if_neg h]

/-- `asciiLower` is idempotent. -/
theorem asciiLower_idem (s : String) :
    asciiLower (asciiLower s) = asciiLower s := by
  unfold asciiLower
  exact congrArg String.mk (by simp [asciiLowerChar_idem])

/-! ## Claim theorems -/

/-- C1: on any decodable key, `_get_auth_header` returns the
percent-encoding of `type=master&ver=1.0&sig=` followed by the base64
encoding — no internal line breaks, exactly one trailing newline
stripped — of the HMAC-SHA256 digest, keyed by the base64-decoded key,
of the payload `lower(verb) + "\n" + lower(resourceType) + "\n" +
resourceLink + "\n" + lower(timestamp) + "\n" + "\n"`; and for the
32-byte digest `base64.encodebytes` emits the unwrapped base64 plus one
newline, so that stripping one character yields the unwrapped base64. -/
theorem claim_C1 (key verb resource_type resource_link date : String)
    (k : List Nat) (h : b64decode key = some k) :
    _get_auth_header key verb resource_type resource_link date =
      some (quote ("type=master&ver=1.0&sig=" ++
        b64encodeNoWrap (hmacSha256 k (utf8Bytes
          (asciiLower verb ++ "\n" ++ asciiLower resource_type ++ "\n" ++
           resource_link ++ "\n" ++ asciiLower date ++ "\n" ++ "\n"))))) ∧
    encodebytes (hmacSha256 k (utf8Bytes (signPayload verb resource_type resource_link date))) =
      b64encodeNoWrap (hmacSha256 k (utf8Bytes (signPayload verb resource_type resource_link date))) ++ "\n" := by
  constructor
  · exact get_auth_header_eq key verb resource_type resource_link date k h
  · have hlen := hmacSha256_length k (utf8Bytes (signPayload verb resource_type resource_link date))
    have hne : hmacSha256 k (utf8Bytes (signPayload verb resource_type resource_link date)) ≠ [] := by
      intro h0
      rw [h0] at hlen
      simp at hlen
    unfold encodebytes b64encodeNoWrap
    rw [encodebytesChars_small _ hne (by rw [hlen]; omega)]
    rfl

/-- C1 witness: the theorem instantiated at a concrete decodable key. -/
theorem claim_C1_witness :
    b64decode "AAAA" = some [0, 0, 0] ∧
    _get_auth_header "AAAA" "GET" "dbs" "" "Tue, 01 Nov 1994 08:12:31 GMT" =
      some (quote ("type=master&ver=1.0&sig=" ++
        b64encodeNoWrap (hmacSha256 [0, 0, 0] (utf8Bytes
          (asciiLower "GET" ++ "\n" ++ asciiLower "dbs" ++ "\n" ++ "" ++ "\n" ++
           asciiLower "Tue, 01 Nov 1994 08:12:31 GMT" ++ "\n" ++ "\n"))))) :=
  ⟨by decide,
   (claim_C1 "AAAA" "GET" "dbs" "" "Tue, 01 Nov 1994 08:12:31 GMT" [0, 0, 0]
     (by decide)).1⟩

/-- C2: a response with a success status is classified `Supported`; a
failure whose body contains `"TLS"` is `NotSupported`; any other failure
is `ConnectionError` carrying the status code and the body text. -/
theorem claim_C2 (status : Nat) (text : String) :
    (responseOk status = true → classifyResponse status text = Outcome.supported) ∧
    (responseOk status = false → pyInStr "TLS" text = true →
      classifyResponse status text = Outcome.notSupported) ∧
    (responseOk status = false → pyInStr "TLS" text = false →
      classifyResponse status text = Outcome.connectionError status text) := by
  refine ⟨fun h => by simp [classifyResponse, h],
    fun h ht => by simp [classifyResponse, h, ht],
    fun h ht => by simp [classifyResponse, h, ht]⟩

/-- C2 witness: the three classification branches at concrete responses. -/
theorem claim_C2_witness :
    classifyResponse 200 "" = Outcome.supported ∧
    classifyResponse 400 "TLS 1.0 rejected" = Outcome.notSupported ∧
    classifyResponse 503 "oops" = Outcome.connectionError 503 "oops" :=
  ⟨(claim_C2 200 "").1 (by decide),
   (claim_C2 400 "TLS 1.0 rejected").2.1 (by decide) (by decide),
   (claim_C2 503 "oops").2.2 (by decide) (by decide)⟩

/-- C6: when the key does not base64-decode, `_get_auth_header` fails
before any HMAC is computed (the decode error surfaces as the spec's
`InvalidCredential`), and the probing loop never consults the network:
its result does not depend on the transport oracle at all. -/
theorem claim_C6 (key verb resource_type resource_link date : String)
    (h : b64decode key = none) :
    _get_auth_header key verb resource_type resource_link date = none ∧
    ∀ (net net' : Nat → Request → NetResult) (dateFormatted : String)
      (db coll : Option String) (versions : List (String × Option Nat)),
      runProbes net key dateFormatted db coll versions =
        runProbes net' key dateFormatted db coll versions := by
  have hauth : ∀ v rt rl d, _get_auth_header key v rt rl d = none := by
    intro v rt rl d
    unfold _get_auth_header
    rw [h]
    rfl
  have hpr : ∀ dF db coll, probeRequest key dF db coll = none := by
    intro dF db coll
    by_cases hc : (truthyOptStr (mainNames db coll).1 &&
        truthyOptStr (mainNames db coll).2) = true <;>
      simp [probeRequest, basic_query_request, list_databases_request, hc, hauth]
  refine ⟨hauth verb resource_type resource_link date, ?_⟩
  intro net net' dF db coll versions
  induction versions with
  | nil => rfl
  | cons e rest ih =>
    obtain ⟨name, v⟩ := e
    by_cases hv : pythonTruthy v = true
    · simp [runProbes, hv, hpr dF db coll]
    · have hv' : pythonTruthy v = false := by simpa using hv
      simp [runProbes, hv', ih]

/-- C6 witness: a concrete non-decodable key (one base64 data character
is an invalid padding). -/
theorem claim_C6_witness :
    b64decode "A" = none ∧
    _get_auth_header "A" "get" "dbs" "" "Tue, 01 Nov 1994 08:12:31 GMT" = none :=
  ⟨by decide,
   (claim_C6 "A" "get" "dbs" "" "Tue, 01 Nov 1994 08:12:31 GMT" (by decide)).1⟩

/-- C9: `sign` is a deterministic function of its five inputs — two
calls on equal keys, verbs, resource types, resource links and
timestamps return the same token. -/
theorem claim_C9 (k1 k2 v1 v2 t1 t2 l1 l2 d1 d2 : String)
    (hk : k1 = k2) (hv : v1 = v2) (ht : t1 = t2) (hl : l1 = l2) (hd : d1 = d2) :
    _get_auth_header k1 v1 t1 l1 d1 = _get_auth_header k2 v2 t2 l2 d2 := by
  subst hk hv ht hl hd
  rfl

/-- C9 witness: two identical calls at concrete inputs. -/
theorem claim_C9_witness :
    _get_auth_header "AAAA" "get" "dbs" "" "Tue, 01 Nov 1994 08:12:31 GMT" =
      _get_auth_header "AAAA" "get" "dbs" "" "Tue, 01 Nov 1994 08:12:31 GMT" :=
  claim_C9 "AAAA" "AAAA" "get" "get" "dbs" "dbs" "" ""
    "Tue, 01 Nov 1994 08:12:31 GMT" "Tue, 01 Nov 1994 08:12:31 GMT"
    rfl rfl rfl rfl rfl

/-- Looking up the key at the head of an association list. -/
theorem lookup_cons_eq {β : Type} (k : String) (v : β) (rest : List (String × β)) :
    List.lookup k ((k, v) :: rest) = some v := by
  simp [List.lookup]

/-- Looking up past a head entry with a different key. -/
theorem lookup_cons_ne {β : Type} (k k' : String) (v : β) (rest : List (String × β))
    (h : (k == k') = false) :
    List.lookup k ((k', v) :: rest) = List.lookup k rest := by
  simp [List.lookup, h]

/-- C3 (code bug evaluation): on a local stack whose every `HAS_*` flag is
true — in particular one that can construct a TLS-1.3-only connection —
`_get_supported_ssl_versions` does return six entries in the fixed order,
but its sixth, TLS 1.3 entry carries the bitwise AND of the five disjoint
`OP_NO_*` masks, which is `0` and hence falsy: the loop of `main` will
always report TLS 1.3 as not supported by the client and never probe it,
contradicting the claimed equivalence of the flag with client capability
(the intended expression is the bitwise OR of the masks, guarded by
`HAS_TLSv1_3`). -/
theorem claim_C3_code_bug :
    _get_supported_ssl_versions ⟨true, true, true, true, true, true⟩ =
      [("SSL V2 (not supported by Azure Cosmos DB)", some 0),
       ("SSL V3 (not supported by Azure Cosmos DB)", some 1),
       ("TLS V1  ", some 3), ("TLS V1.1", some 4), ("TLS V1.2", some 5),
       ("TLS V1.3", some 0)] ∧
    pythonTruthy
      ((_get_supported_ssl_versions ⟨true, true, true, true, true, true⟩).getD 5
        ("", none)).2 = false := by
  constructor <;> decide

/-- C5 counterexample: at a concrete key and HTTP-date, the `x-ms-date`
header of the built list-databases request carries the lower-cased date
string, not the mixed-case one the claim asserts. -/
theorem claim_C5_counterexample :
    ((list_databases_request "AAAA" "Tue, 01 Nov 1994 08:12:31 GMT").map
      (fun r => r.headers.lookup "x-ms-date")) =
      some (some "tue, 01 nov 1994 08:12:31 gmt") ∧
    "tue, 01 nov 1994 08:12:31 gmt" ≠ "Tue, 01 Nov 1994 08:12:31 GMT" := by
  constructor <;> decide

/-- C5 amended: both request builders lower-case the HTTP-date once and
use that single lower-cased string both as the date handed to the signer
and as the `x-ms-date` header sent on the wire — the signed payload's
timestamp field is the lower-cased date, and the wire header is the same
lower-cased string, not mixed case. -/
theorem claim_C5_amended (key dateFormatted : String) :
    (∀ req, list_databases_request key dateFormatted = some req →
      req.headers.lookup "x-ms-date" = some (asciiLower dateFormatted) ∧
      req.headers.lookup "authorization" =
        _get_auth_header key "get" "dbs" "" (asciiLower dateFormatted)) ∧
    (∀ db coll req, basic_query_request key dateFormatted db coll = some req →
      req.headers.lookup "x-ms-date" = some (asciiLower dateFormatted) ∧
      req.headers.lookup "authorization" =
        _get_auth_header key "post" "docs" ("dbs/" ++ db ++ "/colls/" ++ coll)
          (asciiLower dateFormatted)) ∧
    signPayload "get" "dbs" "" (asciiLower dateFormatted) =
      "get" ++ "\n" ++ "dbs" ++ "\n" ++ "" ++ "\n" ++
        asciiLower dateFormatted ++ "\n" ++ "\n" := by
  refine ⟨?_, ?_, ?_⟩
  · intro req hreq
    cases hauth : _get_auth_header key "get" "dbs" "" (asciiLower dateFormatted) with
    | none =>
      simp only [list_databases_request, hauth, Option.map_none'] at hreq
      exact absurd hreq (by simp)
    | some a =>
      simp only [list_databases_request, hauth, Option.map_some',
        Option.some.injEq] at hreq
      subst hreq
      constructor
      · rw [lookup_cons_ne _ _ _ _ (by decide), lookup_cons_ne _ _ _ _ (by decide),
            lookup_cons_eq]
      · rw [lookup_cons_eq]
  · intro db coll req hreq
    cases hauth : _get_auth_header key "post" "docs"
        ("dbs/" ++ db ++ "/colls/" ++ coll) (asciiLower dateFormatted) with
    | none =>
      simp only [basic_query_request, hauth, Option.map_none'] at hreq
      exact absurd hreq (by simp)
    | some a =>
      simp only [basic_query_request, hauth, Option.map_some',
        Option.some.injEq] at hreq
      subst hreq
      constructor
      · rw [lookup_cons_ne _ _ _ _ (by decide), lookup_cons_ne _ _ _ _ (by decide),
            lookup_cons_ne _ _ _ _ (by decide), lookup_cons_eq]
      · rw [lookup_cons_ne _ _ _ _ (by decide), lookup_cons_eq]
  · unfold signPayload
    rw [asciiLower_idem]
    have h1 : asciiLower "get" = "get" := by decide
    have h2 : asciiLower "dbs" = "dbs" := by decide
    rw [h1, h2]

/-- C5 amended witness: the lower-cased `x-ms-date` header of the
concrete list-databases request. -/
theorem claim_C5_amended_witness :
    ((list_databases_request "AAAA" "Tue, 01 Nov 1994 08:12:31 GMT").getD
      ⟨"", "", "", [], none⟩).headers.lookup "x-ms-date" =
      some (asciiLower "Tue, 01 Nov 1994 08:12:31 GMT") := by
  have hne : list_databases_request "AAAA" "Tue, 01 Nov 1994 08:12:31 GMT" ≠
      none := by decide
  have hreq : list_databases_request "AAAA" "Tue, 01 Nov 1994 08:12:31 GMT" =
      some ((list_databases_request "AAAA" "Tue, 01 Nov 1994 08:12:31 GMT").getD
        ⟨"", "", "", [], none⟩) := by
    cases hx : list_databases_request "AAAA" "Tue, 01 Nov 1994 08:12:31 GMT" with
    | none => exact absurd hx hne
    | some r => simp
  exact ((claim_C5_amended "AAAA" "Tue, 01 Nov 1994 08:12:31 GMT").1 _ hreq).1

/-- C8: for an entry whose `ssl_version` slot is falsy, the loop reports
`ClientUnsupported` for that version and moves on, and the handling of
that entry is independent of the transport oracle: the probe is never
invoked. -/
theorem claim_C8 (net : Nat → Request → NetResult) (key dateFormatted : String)
    (db coll : Option String) (name : String) (v : Option Nat)
    (rest : List (String × Option Nat)) (h : pythonTruthy v = false) :
    runProbes net key dateFormatted db coll ((name, v) :: rest) =
      ((name, Outcome.clientUnsupported) ::
        (runProbes net key dateFormatted db coll rest).1,
       (runProbes net key dateFormatted db coll rest).2) ∧
    ∀ net', runProbes net key dateFormatted db coll [(name, v)] =
      runProbes net' key dateFormatted db coll [(name, v)] := by
  constructor
  · simp [runProbes, h]
  · intro net'
    simp [runProbes, h]

/-- C8 witness: a non-negotiable SSL v2 entry against an oracle that
would raise on any contact still yields `ClientUnsupported` cleanly. -/
theorem claim_C8_witness :
    runProbes (fun _ _ => NetResult.raised) "AAAA" "D" none none
      [("SSL V2 (not supported by Azure Cosmos DB)", none)] =
      ([("SSL V2 (not supported by Azure Cosmos DB)", Outcome.clientUnsupported)],
       false) :=
  (claim_C8 (fun _ _ => NetResult.raised) "AAAA" "D" none none
    "SSL V2 (not supported by Azure Cosmos DB)" none [] (by decide)).1

/-- C10: the query-style probe is built only when both the database name
and the collection name are truthy; when exactly one (or neither) is
provided the probe is the list-databases request, the same as when
neither is provided.  The loop re-tests the stripped names, so when both
are truthy on the command line but one strips to `""` (whitespace-only)
the probe also falls back to list-databases; only when both stripped
names remain truthy is the basic-query request built, with the stripped
names.  The two request shapes carry the claimed verb, resource type,
resource link, and body. -/
theorem claim_C10 (key dateFormatted : String) (db coll : Option String) :
    ((truthyOptStr db = false ∨ truthyOptStr coll = false) →
      probeRequest key dateFormatted db coll =
        list_databases_request key dateFormatted) ∧
    (truthyOptStr db = true → truthyOptStr coll = true →
      (truthyOptStr (some (pyStrip (db.getD ""))) = false ∨
       truthyOptStr (some (pyStrip (coll.getD ""))) = false) →
      probeRequest key dateFormatted db coll =
        list_databases_request key dateFormatted) ∧
    (truthyOptStr db = true → truthyOptStr coll = true →
      truthyOptStr (some (pyStrip (db.getD ""))) = true →
      truthyOptStr (some (pyStrip (coll.getD ""))) = true →
      probeRequest key dateFormatted db coll =
        basic_query_request key dateFormatted (pyStrip (db.getD ""))
          (pyStrip (coll.getD ""))) ∧
    (∀ req, list_databases_request key dateFormatted = some req →
      req.verb = "get" ∧ req.resourceType = "dbs" ∧ req.resourceLink = "" ∧
      req.body = none) ∧
    (∀ a b req, basic_query_request key dateFormatted a b = some req →
      req.verb = "post" ∧ req.resourceType = "docs" ∧
      req.resourceLink = "dbs/" ++ a ++ "/colls/" ++ b ∧
      req.body = some "\x7b\"query\":\"SELECT 1\"\x7d") := by
  refine ⟨?_, ?_, ?_, ?_, ?_⟩
  · intro h
    cases h with
    | inl h => simp [probeRequest, mainNames, h]
    | inr h => simp [probeRequest, mainNames, h]
  · intro h1 h2 h3
    cases h3 with
    | inl h => simp [probeRequest, mainNames, h1, h2, h]
    | inr h => simp [probeRequest, mainNames, h1, h2, h]
  · intro h1 h2 h3 h4
    simp [probeRequest, mainNames, h1, h2, h3, h4]
  · intro req hreq
    simp only [list_databases_request, Option.map_eq_some'] at hreq
    obtain ⟨a, _, rfl⟩ := hreq
    exact ⟨rfl, rfl, rfl, rfl⟩
  · intro a b req hreq
    simp only [basic_query_request, Option.map_eq_some'] at hreq
    obtain ⟨x, _, rfl⟩ := hreq
    exact ⟨rfl, rfl, rfl, rfl⟩

/-- C10 witness: with only a database name the probe falls back to
list-databases; with both names given but the database name
whitespace-only it also falls back after stripping; with both names
given and non-blank it is the stripped basic query. -/
theorem claim_C10_witness :
    probeRequest "AAAA" "D" (some "mydb") none =
      list_databases_request "AAAA" "D" ∧
    probeRequest "AAAA" "D" (some "   ") (some "mycoll") =
      list_databases_request "AAAA" "D" ∧
    probeRequest "AAAA" "D" (some " mydb ") (some "mycoll") =
      basic_query_request "AAAA" "D" "mydb" "mycoll" := by
  refine ⟨?_, ?_, ?_⟩
  · exact (claim_C10 "AAAA" "D" (some "mydb") none).1 (Or.inr (by decide))
  · exact (claim_C10 "AAAA" "D" (some "   ") (some "mycoll")).2.1
      (by decide) (by decide) (Or.inl (by decide))
  · have h := (claim_C10 "AAAA" "D" (some " mydb ") (some "mycoll")).2.2.1
      (by decide) (by decide) (by decide) (by decide)
    have h1 : pyStrip " mydb " = "mydb" := by decide
    have h2 : pyStrip "mycoll" = "mycoll" := by decide
    rw [Option.getD_some, Option.getD_some, h1, h2] at h
    exact h

/-- C4 counterexample: with a valid key and a modern stack, a transport
oracle whose TLS 1.0 connection fails the handshake (`raised`) makes the
run stop after the two `ClientUnsupported` lines: the abort flag is set,
TLS 1.1 and TLS 1.2 are never probed, and no `ConnectionError` outcome
is recorded for the failing version — contradicting the claim that such
a failure is caught, reported as a status-less `ConnectionError`, and
never aborts the remaining versions. -/
theorem claim_C4_counterexample :
    mainScan
      (fun v _ => if v == 3 then NetResult.raised else NetResult.response 200 "")
      "AAAA" "Tue, 01 Nov 1994 08:12:31 GMT" none none
      ⟨false, false, true, true, true, true⟩ =
      ([("SSL V2 (not supported by Azure Cosmos DB)", Outcome.clientUnsupported),
        ("SSL V3 (not supported by Azure Cosmos DB)", Outcome.clientUnsupported)],
       true) := by
  decide

/-- C4 amended: when every probe's HTTP exchange completes (and signing
succeeds), each version is classified and reported independently — one
line per candidate version, no abort, so an HTTP-level failure on one
version never aborts the others; but when the transport raises for some
negotiable version (for example a failed TLS handshake), the exception
is not caught and the whole run aborts. -/
theorem claim_C4_amended (net : Nat → Request → NetResult)
    (key dateFormatted : String) (db coll : Option String)
    (versions : List (String × Option Nat)) :
    ((∀ v r, net v r ≠ NetResult.raised) →
      probeRequest key dateFormatted db coll ≠ none →
      (runProbes net key dateFormatted db coll versions).2 = false ∧
      (runProbes net key dateFormatted db coll versions).1.length =
        versions.length) ∧
    (∀ req, probeRequest key dateFormatted db coll = some req →
      (∃ e ∈ versions, pythonTruthy e.2 = true ∧
        net (e.2.getD 0) req = NetResult.raised) →
      (runProbes net key dateFormatted db coll versions).2 = true) := by
  constructor
  · intro hnr hpr
    induction versions with
    | nil => exact ⟨rfl, rfl⟩
    | cons e rest ih =>
      obtain ⟨name, v⟩ := e
      by_cases hv : pythonTruthy v = true
      · cases hreq : probeRequest key dateFormatted db coll with
        | none => exact absurd hreq hpr
        | some req =>
          cases hnet : net (v.getD 0) req with
          | raised => exact absurd hnet (hnr _ _)
          | response st tx =>
            simp only [runProbes, hv, if_true, hreq, hnet]
            exact ⟨ih.1, by simp [ih.2]⟩
      · have hv' : pythonTruthy v = false := by simpa using hv
        simp only [runProbes, hv', Bool.false_eq_true, if_false]
        exact ⟨ih.1, by simp [ih.2]⟩
  · intro req hreq
    induction versions with
    | nil =>
      intro hex
      obtain ⟨e, he, _⟩ := hex
      exact absurd he (List.not_mem_nil e)
    | cons e0 rest ih =>
      intro hex
      obtain ⟨name, v⟩ := e0
      by_cases hv : pythonTruthy v = true
      · cases hnet : net (v.getD 0) req with
        | raised => simp [runProbes, hv, hreq, hnet]
        | response st tx =>
          obtain ⟨e, he, htr, hr⟩ := hex
          rcases List.mem_cons.mp he with rfl | hrest
          · rw [hnet] at hr
            exact absurd hr (by simp)
          · have habort := ih ⟨e, hrest, htr, hr⟩
            simp [runProbes, hv, hreq, hnet, habort]
      · have hv' : pythonTruthy v = false := by simpa using hv
        obtain ⟨e, he, htr, hr⟩ := hex
        rcases List.mem_cons.mp he with rfl | hrest
        · rw [htr] at hv'
          exact absurd hv' (by simp)
        · have habort := ih ⟨e, hrest, htr, hr⟩
          simp [runProbes, hv', habort]

/-- C4 amended witness: an all-responding oracle yields six report lines
and no abort over a modern stack's candidate list. -/
theorem claim_C4_amended_witness :
    (runProbes (fun _ _ => NetResult.response 200 "ok") "AAAA" "D" none none
      (_get_supported_ssl_versions ⟨false, false, true, true, true, true⟩)).2 =
      false ∧
    (runProbes (fun _ _ => NetResult.response 200 "ok") "AAAA" "D" none none
      (_get_supported_ssl_versions ⟨false, false, true, true, true, true⟩)).1.length =
      (_get_supported_ssl_versions ⟨false, false, true, true, true, true⟩).length :=
  (claim_C4_amended (fun _ _ => NetResult.response 200 "ok") "AAAA" "D" none none
    (_get_supported_ssl_versions ⟨false, false, true, true, true, true⟩)).1
    (fun v r h => NetResult.noConfusion h) (by decide)

/-- C7: percent-decoding the token `sign` returns recovers exactly the
unencoded string `type=master&ver=1.0&sig=<signature>`, and the
signature part consists only of base64 alphabet characters and `=`. -/
theorem claim_C7 (key verb resource_type resource_link date token : String)
    (k : List Nat) (hk : b64decode key = some k)
    (htok : _get_auth_header key verb resource_type resource_link date =
      some token) :
    asciiDecode (unquoteBytes token.data) =
      some ("type=master&ver=1.0&sig=" ++
        b64encodeNoWrap (hmacSha256 k
          (utf8Bytes (signPayload verb resource_type resource_link date)))) ∧
    (b64encodeNoWrap (hmacSha256 k
      (utf8Bytes (signPayload verb resource_type resource_link date)))).data.all
      (fun c => isB64Char c || c == '=') = true := by
  have hgood := b64encodeChars_good
    (hmacSha256 k (utf8Bytes (signPayload verb resource_type resource_link date)))
  have hb64all : (b64encodeNoWrap (hmacSha256 k
      (utf8Bytes (signPayload verb resource_type resource_link date)))).data.all
      (fun c => isB64Char c || c == '=') = true := by
    rw [List.all_eq_true] at hgood ⊢
    intro c hc
    have h := hgood c hc
    simp only [goodB64, Bool.and_eq_true] at h
    exact h.1
  refine ⟨?_, hb64all⟩
  rw [get_auth_header_eq key verb resource_type resource_link date k hk] at htok
  have htok' := Option.some.inj htok
  subst htok'
  have hascii : ∀ c ∈ ("type=master&ver=1.0&sig=" ++
      b64encodeNoWrap (hmacSha256 k
        (utf8Bytes (signPayload verb resource_type resource_link date)))).data,
      c.toNat < 128 := by
    intro c hc
    rw [show ("type=master&ver=1.0&sig=" ++
      b64encodeNoWrap (hmacSha256 k
        (utf8Bytes (signPayload verb resource_type resource_link date)))).data =
      "type=master&ver=1.0&sig=".data ++
      b64encodeChars (hmacSha256 k
        (utf8Bytes (signPayload verb resource_type resource_link date))) from rfl] at hc
    rcases List.mem_append.mp hc with hpre | hsig
    · have : "type=master&ver=1.0&sig=".data.all
          (fun c => decide (c.toNat < 128)) = true := by decide
      rw [List.all_eq_true] at this
      exact of_decide_eq_true (this c hpre)
    · rw [List.all_eq_true] at hgood
      have h := hgood c hsig
      simp only [goodB64, Bool.and_eq_true, decide_eq_true_eq] at h
      exact h.2
  have hrt : unquoteBytes (quote ("type=master&ver=1.0&sig=" ++
      b64encodeNoWrap (hmacSha256 k
        (utf8Bytes (signPayload verb resource_type resource_link date))))).data =
      ("type=master&ver=1.0&sig=" ++
        b64encodeNoWrap (hmacSha256 k
          (utf8Bytes (signPayload verb resource_type resource_link date)))).data.map
        Char.toNat :=
    unquote_quote_ascii _ hascii
  rw [hrt]
  have hall : (("type=master&ver=1.0&sig=" ++
      b64encodeNoWrap (hmacSha256 k
        (utf8Bytes (signPayload verb resource_type resource_link date)))).data.map
      Char.toNat).all (fun b => b < 128) = true := by
    rw [List.all_eq_true]
    intro b hb
    obtain ⟨c, hc, rfl⟩ := List.mem_map.mp hb
    exact decide_eq_true (hascii c hc)
  have hid : ∀ l : List Char, List.map (Char.ofNat ∘ Char.toNat) l = l := by
    intro l
    induction l with
    | nil => rfl
    | cons c cs ih => simp [Function.comp, Char.ofNat_toNat, ih]
  rw [asciiDecode, if_pos hall, List.map_map, hid]

/-- C7 witness: the roundtrip at a concrete key, request, and date. -/
theorem claim_C7_witness :
    asciiDecode (unquoteBytes (quote ("type=master&ver=1.0&sig=" ++
      b64encodeNoWrap (hmacSha256 [0, 0, 0]
        (utf8Bytes (signPayload "get" "dbs" "" "x"))))).data) =
      some ("type=master&ver=1.0&sig=" ++
        b64encodeNoWrap (hmacSha256 [0, 0, 0]
          (utf8Bytes (signPayload "get" "dbs" "" "x")))) :=
  (claim_C7 "AAAA" "get" "dbs" "" "x" _ [0, 0, 0] (by decide)
    (get_auth_header_eq "AAAA" "get" "dbs" "" "x" [0, 0, 0] (by decide))).1

end CosmosTlsScanner
